import Mathlib

/-!
Verification of the configuration-resolution core of `TestConfigManager`
(`src/testConfigManager.ts`): `loadRunConfig`, `selectDeprecatedConfig` and
`selectQuickPick`.  Collaborators (settings provider, folder resolver, legacy
store, prompt) are modelled as an explicit environment of functions; warning
emission is modelled by returning the emitted warning messages alongside the
result; thrown exceptions are modelled by `Except.error`.
-/

namespace TestConfigManager

/-- Modelled from the spec: an execution configuration (interface
`IExecutionConfig` from the missing `runConfigs.ts`) is an opaque bag of
execution parameters with an optional display `name`; the rest is kept as an
opaque serializable payload. -/
structure IExecutionConfig where
  name : Option String
  payload : String
  deriving DecidableEq, Repr

/-- Modelled from the spec: a legacy configuration group (interface
`IExecutionConfigGroup` from the missing `runConfigs.ts`): an ordered list of
items and a `default` name.  The name is optional because the on-disk JSON may
omit the key (JavaScript then sees `undefined`). -/
structure IExecutionConfigGroup where
  items : List IExecutionConfig
  default : Option String
  deriving DecidableEq, Repr

/-- Modelled from the spec: the on-disk legacy document (interface
`ITestConfig` from the missing `runConfigs.ts`) with `run` and `debug` groups.
Each group is optional because `JSON.parse` performs no shape validation, so a
key may be absent (JavaScript then sees `undefined`). -/
structure ITestConfig where
  run : Option IExecutionConfigGroup
  debug : Option IExecutionConfigGroup
  deriving DecidableEq, Repr

/-- A test item; the core only reads its `uri` (location identifier). -/
structure ITestItem where
  uri : String
  deriving DecidableEq, Repr

/-- A workspace folder; the core only reads its `uri.fsPath`. -/
structure WorkspaceFolder where
  fsPath : String
  deriving DecidableEq, Repr

/-- JavaScript truthiness of an optional string: `undefined` and the empty
string are falsy (used by `configs[i].name ?` and `!configs[0].default`). -/
def jsTruthy : Option String → Bool
  | none => false
  | some s => s != ""

/-- Modelled from the spec: `JSON.stringify` of a configuration, used only as
an opaque display detail string. -/
def stringify (c : IExecutionConfig) : String :=
  "\x7b\x22name\x22: "
    ++ (match c.name with
        | none => "undefined"
        | some s => "\x22" ++ s ++ "\x22")
    ++ ", \x22rest\x22: " ++ c.payload ++ "\x7d"

/-- A quick-pick entry (`IRunConfigQuickPick`): display label, detail string
and the configuration bound to the entry. -/
structure IRunConfigQuickPick where
  label : String
  detail : String
  item : IExecutionConfig
  deriving DecidableEq, Repr

/-- The `for` loop of `selectQuickPick`, building one display entry per
configuration; `i` is the 0-based index of the first remaining element. -/
def buildChoicesFrom (i : Nat) : List IExecutionConfig → List IRunConfigQuickPick
  | [] => []
  | c :: rest =>
      { label := if jsTruthy c.name then c.name.getD "" else "Configuration #" ++ toString (i + 1)
        detail := stringify c
        item := c } :: buildChoicesFrom (i + 1) rest

/-- The full list of quick-pick entries offered for a configuration list. -/
def buildChoices (configs : List IExecutionConfig) : List IRunConfigQuickPick :=
  buildChoicesFrom 0 configs

/-- `selectQuickPick(configs)`: offer the entries to the user via the prompt
collaborator `pick`; dismissal (`undefined`) throws
`Please specify the test config to use.`, otherwise the chosen entry's bound
configuration is returned. -/
def selectQuickPick (pick : List IRunConfigQuickPick → Option IRunConfigQuickPick)
    (configs : List IExecutionConfig) : Except String IExecutionConfig :=
  match pick (buildChoices configs) with
  | none => Except.error "Please specify the test config to use."
  | some selection => Except.ok selection.item

/-- The `configItems.push(...config.items)` loop of `selectDeprecatedConfig`:
concatenate the groups' item lists in order.  A group that is `undefined`
(absent JSON key) makes `config.items` throw a `TypeError`. -/
def collectItems : List (Option IExecutionConfigGroup) → Option (List IExecutionConfig)
  | [] => some []
  | none :: _ => none
  | some g :: rest => (collectItems rest).map (fun tl => g.items ++ tl)

/-- `selectDeprecatedConfig(configs, usingDefaultConfig)`.  The result pairs
the outcome (`Except.error` models a thrown exception, `Except.ok none` an
`undefined` result) with the list of warning messages emitted via
`window.showWarningMessage`, in emission order. -/
def selectDeprecatedConfig (pick : List IRunConfigQuickPick → Option IRunConfigQuickPick)
    (configs : List (Option IExecutionConfigGroup)) (usingDefaultConfig : Bool) :
    Except String (Option IExecutionConfig) × List String :=
  if configs.length = 0 then (Except.ok none, [])
  else if usingDefaultConfig then
    if configs.length ≠ 1 then (Except.ok none, [])
    else
      match configs.head? with
      | none => (Except.error "TypeError: cannot read properties of undefined", [])
      | some none =>
          (Except.error "TypeError: cannot read property of undefined group", [])
      | some (some runConfig) =>
          match runConfig.default with
          | none => (Except.ok none, [])
          | some d =>
              if d = "" then (Except.ok none, [])
              else
                let candidates : List IExecutionConfig :=
                  runConfig.items.filter (fun item => item.name == some d)
                if candidates.length = 0 then
                  (Except.ok none, ["There is no config with name: " ++ d ++ "."])
                else if 1 < candidates.length then
                  (Except.ok candidates.head?,
                   ["Duplicate configs with default name: " ++ d ++ "."])
                else
                  (Except.ok candidates.head?, [])
  else
    let warns : List String :=
      if 1 < configs.length then
        ["It is not supported to run tests with config from multi root."]
      else []
    match collectItems configs with
    | none => (Except.error "TypeError: cannot read property of undefined group", warns)
    | some configItems => ((selectQuickPick pick configItems).map Option.some, warns)

/-- The external collaborators consumed by the resolver: workspace-folder
resolution, the settings provider, the legacy store (existence, read, parse)
and the interactive prompt. -/
structure Env where
  resolveFolder : String → Option WorkspaceFolder
  getConfigList : WorkspaceFolder → Option (List IExecutionConfig)
  pathExists : String → Bool
  readFile : String → String
  parseTestConfig : String → Except String ITestConfig
  pick : List IRunConfigQuickPick → Option IRunConfigQuickPick

/-- The fixed relative path constant held by the manager
(`path.join('.vscode', 'launch.test.json')`). -/
def configRelativePath : String := ".vscode/launch.test.json"

/-- The legacy-schema branch of `loadRunConfig`: check the file, read and
parse it, select the `run` or `debug` group by the mode flag, and delegate to
`selectDeprecatedConfig` with that single group. -/
def loadLegacy (env : Env) (workspaceFolder : WorkspaceFolder)
    (isDebug usingDefaultConfig : Bool) :
    Except String (Option IExecutionConfig) × List String :=
  let configFullPath : String := workspaceFolder.fsPath ++ "/" ++ configRelativePath
  if env.pathExists configFullPath = false then (Except.ok none, [])
  else
    match env.parseTestConfig (env.readFile configFullPath) with
    | Except.error e => (Except.error e, [])
    | Except.ok deprecatedConfig =>
        selectDeprecatedConfig env.pick
          [if isDebug then deprecatedConfig.debug else deprecatedConfig.run]
          usingDefaultConfig

/-- `loadRunConfig(tests, isDebug, usingDefaultConfig)`: resolve the workspace
folder from the first test item, prefer the new-schema settings list (first
element when `usingDefaultConfig`, quick pick otherwise), and otherwise fall
back to the legacy file. -/
def loadRunConfig (env : Env) (tests : List ITestItem)
    (isDebug usingDefaultConfig : Bool) :
    Except String (Option IExecutionConfig) × List String :=
  match tests.head? with
  | none => (Except.error "TypeError: cannot read uri of undefined", [])
  | some t =>
      match env.resolveFolder t.uri with
      | none => (Except.ok none, [])
      | some workspaceFolder =>
          match env.getConfigList workspaceFolder with
          | some configs =>
              if 0 < configs.length then
                if usingDefaultConfig then (Except.ok configs.head?, [])
                else ((selectQuickPick env.pick configs).map Option.some, [])
              else loadLegacy env workspaceFolder isDebug usingDefaultConfig
          | none => loadLegacy env workspaceFolder isDebug usingDefaultConfig

/-! ### Helper lemmas -/

theorem buildChoicesFrom_length (i : Nat) (l : List IExecutionConfig) :
    (buildChoicesFrom i l).length = l.length := by
  induction l generalizing i with
  | nil => rfl
  | cons c rest ih => simp [buildChoicesFrom, ih]

theorem buildChoicesFrom_get (i k : Nat) (l : List IExecutionConfig) :
    (buildChoicesFrom i l).get? k = (l.get? k).map (fun c =>
      { label := if jsTruthy c.name then c.name.getD ""
                 else "Configuration #" ++ toString (i + k + 1)
        detail := stringify c
        item := c }) := by
  induction l generalizing i k with
  | nil => simp [buildChoicesFrom]
  | cons c rest ih =>
    cases k with
    | zero => simp [buildChoicesFrom]
    | succ k =>
      have h : i + (k + 1) + 1 = (i + 1) + k + 1 := by omega
      simp only [buildChoicesFrom, List.get?_cons_succ, ih (i + 1) k, h]

theorem filter_cons_first {α : Type} (p : α → Bool) (l : List α) (a : α) (as : List α)
    (h : l.filter p = a :: as) :
    ∃ pre post, l = pre ++ a :: post ∧ ∀ x ∈ pre, p x = false := by
  induction l with
  | nil => simp at h
  | cons x xs ih =>
    cases hp : p x with
    | true =>
      rw [List.filter_cons_of_pos hp] at h
      injection h with h1 _
      exact ⟨[], xs, by rw [h1]; rfl, by simp⟩
    | false =>
      rw [List.filter_cons_of_neg (by simp [hp])] at h
      obtain ⟨pre, post, hsplit, hpre⟩ := ih h
      refine ⟨x :: pre, post, by rw [hsplit]; rfl, ?_⟩
      intro y hy
      rcases List.mem_cons.mp hy with rfl | hy2
      · exact hp
      · exact hpre y hy2

theorem collectItems_map_some (l : List IExecutionConfigGroup) :
    collectItems (l.map Option.some) = some (l.flatMap fun g => g.items) := by
  induction l with
  | nil => rfl
  | cons g rest ih => simp [collectItems, ih]

/-! ### Claim theorems -/

/-- C7: in `selectQuickPick`, the display entries are built one per
configuration preserving order; entry `k` (0-based) has label equal to the
configuration's name when present and non-empty, and exactly
`Configuration #<k+1>` (1-based position) otherwise, and carries the full
serialized configuration as detail together with the original configuration
value. -/
theorem selectQuickPick_entries (configs : List IExecutionConfig) (k : Nat)
    (c : IExecutionConfig) (h : configs.get? k = some c) :
    (buildChoices configs).length = configs.length ∧
    (buildChoices configs).get? k = some
      { label := if jsTruthy c.name then c.name.getD ""
                 else "Configuration #" ++ toString (k + 1)
        detail := stringify c
        item := c } := by
  refine ⟨buildChoicesFrom_length 0 configs, ?_⟩
  rw [buildChoices, buildChoicesFrom_get 0 k configs, h]
  simp

/-- C6: in `selectQuickPick`, dismissing the prompt (the prompt collaborator
returns `undefined`) throws the fatal `Please specify the test config to use.`
error, never a silent `undefined`; a chosen entry yields exactly the
configuration bound to that entry. -/
theorem selectQuickPick_outcomes
    (pick : List IRunConfigQuickPick → Option IRunConfigQuickPick)
    (configs : List IExecutionConfig) :
    (pick (buildChoices configs) = none →
      selectQuickPick pick configs =
        Except.error "Please specify the test config to use.") ∧
    (∀ sel, pick (buildChoices configs) = some sel →
      selectQuickPick pick configs = Except.ok sel.item) := by
  constructor
  · intro h; simp [selectQuickPick, h]
  · intro sel h; simp [selectQuickPick, h]

/-- C2: in `selectDeprecatedConfig` with `usingDefaultConfig = true` and a
single group whose non-empty default name matches more than one item, the
result is the first matching item in item order and exactly one duplicate-name
warning is emitted. -/
theorem selectDeprecatedConfig_duplicateDefault
    (pick : List IRunConfigQuickPick → Option IRunConfigQuickPick)
    (g : IExecutionConfigGroup) (d : String) (m1 m2 : IExecutionConfig)
    (ms : List IExecutionConfig)
    (hd : g.default = some d) (hne : d ≠ "")
    (hfil : g.items.filter (fun item => item.name == some d) = m1 :: m2 :: ms) :
    selectDeprecatedConfig pick [some g] true =
      (Except.ok (some m1), ["Duplicate configs with default name: " ++ d ++ "."]) ∧
    ∃ pre post, g.items = pre ++ m1 :: post ∧
      ∀ x ∈ pre, (x.name == some d) = false := by
  constructor
  · simp [selectDeprecatedConfig, hd, hne, hfil]
  · exact filter_cons_first _ _ _ _ hfil

/-- C4: in `selectDeprecatedConfig` with `usingDefaultConfig = true` and a
single group whose non-empty default name matches zero items, exactly one
`There is no config with name: <default>.` warning is emitted and the result
is `undefined`. -/
theorem selectDeprecatedConfig_noMatch
    (pick : List IRunConfigQuickPick → Option IRunConfigQuickPick)
    (g : IExecutionConfigGroup) (d : String)
    (hd : g.default = some d) (hne : d ≠ "")
    (hfil : g.items.filter (fun item => item.name == some d) = []) :
    selectDeprecatedConfig pick [some g] true =
      (Except.ok none, ["There is no config with name: " ++ d ++ "."]) := by
  simp [selectDeprecatedConfig, hd, hne, hfil]

/-- C3: in `selectDeprecatedConfig` with `usingDefaultConfig = true`, more
than one group, or a single group with an absent or empty default name, yields
`undefined` with no warning; and a successful selection is possible only when
the input is exactly one (defined) group with a truthy default name. -/
theorem selectDeprecatedConfig_defaultRequiresSingleGroup
    (pick : List IRunConfigQuickPick → Option IRunConfigQuickPick)
    (configs : List (Option IExecutionConfigGroup)) (g : IExecutionConfigGroup)
    (hlen : 1 < configs.length) (hdef : jsTruthy g.default = false) :
    selectDeprecatedConfig pick configs true = (Except.ok none, []) ∧
    selectDeprecatedConfig pick [some g] true = (Except.ok none, []) ∧
    ∀ (configs2 : List (Option IExecutionConfigGroup)) (c : IExecutionConfig),
      (selectDeprecatedConfig pick configs2 true).1 = Except.ok (some c) →
      ∃ g2, configs2 = [some g2] ∧ jsTruthy g2.default = true := by
  refine ⟨?_, ?_, ?_⟩
  · have h0 : configs.length ≠ 0 := by omega
    have h1 : configs.length ≠ 1 := by omega
    simp [selectDeprecatedConfig, h0, h1]
  · cases hgd : g.default with
    | none => simp [selectDeprecatedConfig, hgd]
    | some d =>
        have hde : d = "" := by
          by_contra hne
          simp [jsTruthy, hgd, hne] at hdef
        simp [selectDeprecatedConfig, hgd, hde]
  · intro configs2 c hok
    match configs2 with
    | [] => simp [selectDeprecatedConfig] at hok
    | o1 :: o2 :: rest =>
        have h0 : (o1 :: o2 :: rest).length ≠ 0 := by simp
        have h1 : (o1 :: o2 :: rest).length ≠ 1 := by simp
        simp [selectDeprecatedConfig, h0, h1] at hok
    | [none] => simp [selectDeprecatedConfig] at hok
    | [some g2] =>
        refine ⟨g2, rfl, ?_⟩
        cases hgd : g2.default with
        | none => simp [selectDeprecatedConfig, hgd] at hok
        | some d =>
            by_cases hde : d = ""
            · simp [selectDeprecatedConfig, hgd, hde] at hok
            · simp [jsTruthy, hgd, hde]

/-- C5: in `selectDeprecatedConfig` with `usingDefaultConfig = false`, the
sequence offered to the interactive prompt is the concatenation of all groups'
items in group order (preserving each group's internal item order), and a
single multi-root warning is emitted iff more than one group is present, with
execution continuing to the quick pick either way. -/
theorem selectDeprecatedConfig_interactiveFlattens
    (pick : List IRunConfigQuickPick → Option IRunConfigQuickPick)
    (g : IExecutionConfigGroup) (gs : List IExecutionConfigGroup) :
    selectDeprecatedConfig pick ((g :: gs).map Option.some) false =
      ((selectQuickPick pick ((g :: gs).flatMap fun x => x.items)).map Option.some,
       if 0 < gs.length then
         ["It is not supported to run tests with config from multi root."]
       else []) := by
  have hcol := collectItems_map_some (g :: gs)
  simp only [List.map_cons, List.flatMap_cons] at hcol
  have hlen : ((g :: gs).map Option.some).length = gs.length + 1 := by simp
  by_cases hgs : 0 < gs.length
  · have h1 : 1 < ((g :: gs).map Option.some).length := by omega
    simp [selectDeprecatedConfig, hcol, hgs, h1, hlen]
  · have h1 : ¬ 1 < ((g :: gs).map Option.some).length := by omega
    simp [selectDeprecatedConfig, hcol, hgs, h1, hlen]

/-- C1: when the settings provider returns a non-empty new-schema list,
`loadRunConfig` with `usingDefaultConfig = true` returns the first element of
that list, regardless of the list's contents, with no warning and no prompt. -/
theorem loadRunConfig_newSchemaDefault (env : Env) (tests : List ITestItem)
    (t : ITestItem) (folder : WorkspaceFolder) (c : IExecutionConfig)
    (cs : List IExecutionConfig) (isDebug : Bool)
    (ht : tests.head? = some t)
    (hf : env.resolveFolder t.uri = some folder)
    (hc : env.getConfigList folder = some (c :: cs)) :
    loadRunConfig env tests isDebug true = (Except.ok (some c), []) := by
  simp [loadRunConfig, ht, hf, hc]

/-- C8: `loadRunConfig` returns `undefined` (not an error) when no workspace
folder resolves, and when the new-schema list is absent or empty and the
legacy file does not exist; a legacy file that exists but fails to parse is a
fatal failure propagated to the caller with no further fallback. -/
theorem loadRunConfig_noneOutcomes_and_parseFatal (env : Env)
    (tests : List ITestItem) (t : ITestItem) (isDebug usingDefaultConfig : Bool)
    (ht : tests.head? = some t) :
    (env.resolveFolder t.uri = none →
      loadRunConfig env tests isDebug usingDefaultConfig = (Except.ok none, [])) ∧
    ∀ folder, env.resolveFolder t.uri = some folder →
      (env.getConfigList folder = none ∨ env.getConfigList folder = some []) →
      ((env.pathExists (folder.fsPath ++ "/" ++ configRelativePath) = false →
          loadRunConfig env tests isDebug usingDefaultConfig = (Except.ok none, [])) ∧
       (∀ e, env.pathExists (folder.fsPath ++ "/" ++ configRelativePath) = true →
          env.parseTestConfig
              (env.readFile (folder.fsPath ++ "/" ++ configRelativePath)) =
            Except.error e →
          loadRunConfig env tests isDebug usingDefaultConfig =
            (Except.error e, []))) := by
  constructor
  · intro hf
    simp [loadRunConfig, ht, hf]
  · intro folder hf hc
    constructor
    · intro hp
      rcases hc with hc | hc <;>
        simp [loadRunConfig, loadLegacy, ht, hf, hc, hp]
    · intro e hp hparse
      rcases hc with hc | hc <;>
        simp [loadRunConfig, loadLegacy, ht, hf, hc, hp, hparse]

/-- C9: `loadRunConfig` is a pure function of its inputs and of the behaviour
of the external collaborators: two calls with identical inputs against
collaborators that behave identically produce identical results (no hidden
mutable state between calls). -/
theorem loadRunConfig_deterministic (env1 env2 : Env) (tests : List ITestItem)
    (isDebug usingDefaultConfig : Bool)
    (h1 : env1.resolveFolder = env2.resolveFolder)
    (h2 : env1.getConfigList = env2.getConfigList)
    (h3 : env1.pathExists = env2.pathExists)
    (h4 : env1.readFile = env2.readFile)
    (h5 : env1.parseTestConfig = env2.parseTestConfig)
    (h6 : env1.pick = env2.pick) :
    loadRunConfig env1 tests isDebug usingDefaultConfig =
      loadRunConfig env2 tests isDebug usingDefaultConfig := by
  cases env1
  cases env2
  simp only at h1 h2 h3 h4 h5 h6
  subst h1 h2 h3 h4 h5 h6
  rfl

/-- C10: if the legacy document parses but the group selected by the mode
flag is absent (`undefined`), `loadRunConfig` does not return `undefined`: it
throws, both in the default-config branch and in the interactive branch. -/
theorem loadRunConfig_missingGroupThrows (env : Env) (tests : List ITestItem)
    (t : ITestItem) (folder : WorkspaceFolder) (tc : ITestConfig)
    (isDebug usingDefaultConfig : Bool)
    (ht : tests.head? = some t)
    (hf : env.resolveFolder t.uri = some folder)
    (hc : env.getConfigList folder = none ∨ env.getConfigList folder = some [])
    (hp : env.pathExists (folder.fsPath ++ "/" ++ configRelativePath) = true)
    (hparse : env.parseTestConfig
        (env.readFile (folder.fsPath ++ "/" ++ configRelativePath)) =
      Except.ok tc)
    (hg : (if isDebug then tc.debug else tc.run) = none) :
    ∃ e, loadRunConfig env tests isDebug usingDefaultConfig =
      (Except.error e, []) := by
  refine ⟨"TypeError: cannot read property of undefined group", ?_⟩
  cases usingDefaultConfig <;>
    rcases hc with hc | hc <;>
      simp [loadRunConfig, loadLegacy, selectDeprecatedConfig, collectItems,
            ht, hf, hc, hp, hparse, hg]

/-! ### Concrete sample data for witnesses -/

/-- A sample test item. -/
def itemA : ITestItem := ⟨"file:///proj/src/test/ATest.java"⟩

/-- A sample workspace folder. -/
def folderA : WorkspaceFolder := ⟨"/proj"⟩

/-- A sample named configuration. -/
def cfgA : IExecutionConfig := ⟨some "A", "argsA"⟩

/-- A second sample named configuration. -/
def cfgB : IExecutionConfig := ⟨some "B", "argsB"⟩

/-- First configuration named `X`. -/
def cfgX1 : IExecutionConfig := ⟨some "X", "args1"⟩

/-- Second configuration named `X`. -/
def cfgX2 : IExecutionConfig := ⟨some "X", "args2"⟩

/-- A configuration named `Y`. -/
def cfgY : IExecutionConfig := ⟨some "Y", "args3"⟩

/-- A configuration with no name. -/
def cfgNoName : IExecutionConfig := ⟨none, "args0"⟩

/-- A prompt collaborator that always reports dismissal. -/
def pickNone : List IRunConfigQuickPick → Option IRunConfigQuickPick :=
  fun _ => none

/-- A prompt collaborator that always chooses the first offered entry. -/
def pickFirst : List IRunConfigQuickPick → Option IRunConfigQuickPick :=
  fun l => l.head?

/-- Environment whose settings provider returns the new-schema list
`[cfgA, cfgB]`. -/
def envNew : Env where
  resolveFolder := fun _ => some folderA
  getConfigList := fun _ => some [cfgA, cfgB]
  pathExists := fun _ => false
  readFile := fun _ => ""
  parseTestConfig := fun _ => Except.error "unexpected"
  pick := pickNone

/-- A structurally identical copy of `envNew`. -/
def envNewCopy : Env where
  resolveFolder := fun _ => some folderA
  getConfigList := fun _ => some [cfgA, cfgB]
  pathExists := fun _ => false
  readFile := fun _ => ""
  parseTestConfig := fun _ => Except.error "unexpected"
  pick := pickNone

/-- Environment in which no workspace folder resolves. -/
def envNoFolder : Env where
  resolveFolder := fun _ => none
  getConfigList := fun _ => none
  pathExists := fun _ => false
  readFile := fun _ => ""
  parseTestConfig := fun _ => Except.error "unexpected"
  pick := pickNone

/-- Environment with no new-schema list and no legacy file. -/
def envNoFile : Env where
  resolveFolder := fun _ => some folderA
  getConfigList := fun _ => none
  pathExists := fun _ => false
  readFile := fun _ => ""
  parseTestConfig := fun _ => Except.error "unexpected"
  pick := pickNone

/-- Environment whose legacy file exists but fails to parse. -/
def envParseErr : Env where
  resolveFolder := fun _ => some folderA
  getConfigList := fun _ => none
  pathExists := fun _ => true
  readFile := fun _ => "not json"
  parseTestConfig := fun _ => Except.error "bad json"
  pick := pickNone

/-- Environment whose legacy file parses to a document with a `run` group but
no `debug` group. -/
def envMissingDebug : Env where
  resolveFolder := fun _ => some folderA
  getConfigList := fun _ => none
  pathExists := fun _ => true
  readFile := fun _ => "legacy"
  parseTestConfig := fun _ => Except.ok ⟨some ⟨[cfgA], some "A"⟩, none⟩
  pick := pickNone

/-! ### Witnesses -/

/-- Witness for C1 at a concrete environment and list. -/
theorem loadRunConfig_newSchemaDefault_witness :
    loadRunConfig envNew [itemA] false true = (Except.ok (some cfgA), []) :=
  loadRunConfig_newSchemaDefault envNew [itemA] itemA folderA cfgA [cfgB] false
    rfl rfl rfl

/-- Witness for C2 at the spec's example group
`default = "X"`, items `[X, X, Y]`. -/
theorem selectDeprecatedConfig_duplicateDefault_witness :
    selectDeprecatedConfig pickNone [some ⟨[cfgX1, cfgX2, cfgY], some "X"⟩] true =
      (Except.ok (some cfgX1), ["Duplicate configs with default name: X."]) :=
  (selectDeprecatedConfig_duplicateDefault pickNone
    ⟨[cfgX1, cfgX2, cfgY], some "X"⟩ "X" cfgX1 cfgX2 [] rfl (by decide) rfl).1

/-- Witness for C3: two groups, and a single group with an absent default. -/
theorem selectDeprecatedConfig_defaultRequiresSingleGroup_witness :
    selectDeprecatedConfig pickNone
        [some ⟨[cfgA], some "A"⟩, some ⟨[cfgB], some "B"⟩] true =
      (Except.ok none, []) ∧
    selectDeprecatedConfig pickNone [some ⟨[cfgA], none⟩] true =
      (Except.ok none, []) :=
  ⟨(selectDeprecatedConfig_defaultRequiresSingleGroup pickNone
      [some ⟨[cfgA], some "A"⟩, some ⟨[cfgB], some "B"⟩] ⟨[cfgA], none⟩
      (by decide) rfl).1,
   (selectDeprecatedConfig_defaultRequiresSingleGroup pickNone
      [some ⟨[cfgA], some "A"⟩, some ⟨[cfgB], some "B"⟩] ⟨[cfgA], none⟩
      (by decide) rfl).2.1⟩

/-- Witness for C4 at the spec's example group
`default = "Z"`, items `[X]`. -/
theorem selectDeprecatedConfig_noMatch_witness :
    selectDeprecatedConfig pickNone [some ⟨[cfgX1], some "Z"⟩] true =
      (Except.ok none, ["There is no config with name: Z."]) :=
  selectDeprecatedConfig_noMatch pickNone ⟨[cfgX1], some "Z"⟩ "Z"
    rfl (by decide) rfl

/-- Witness for C6: dismissal throws, a choice returns the bound
configuration. -/
theorem selectQuickPick_outcomes_witness :
    selectQuickPick pickNone [cfgA] =
      Except.error "Please specify the test config to use." ∧
    selectQuickPick pickFirst [cfgA] = Except.ok cfgA :=
  ⟨(selectQuickPick_outcomes pickNone [cfgA]).1 rfl,
   (selectQuickPick_outcomes pickFirst [cfgA]).2 ⟨"A", stringify cfgA, cfgA⟩ rfl⟩

/-- Witness for C7 at position 0 of a list whose first element is unnamed. -/
theorem selectQuickPick_entries_witness :
    (buildChoices [cfgNoName, cfgA]).length = ([cfgNoName, cfgA] : List IExecutionConfig).length ∧
    (buildChoices [cfgNoName, cfgA]).get? 0 = some
      { label := if jsTruthy cfgNoName.name then cfgNoName.name.getD ""
                 else "Configuration #" ++ toString (0 + 1)
        detail := stringify cfgNoName
        item := cfgNoName } :=
  selectQuickPick_entries [cfgNoName, cfgA] 0 cfgNoName rfl

/-- Witness for C8 at three concrete environments: unresolved folder, missing
legacy file, and parse failure. -/
theorem loadRunConfig_noneOutcomes_and_parseFatal_witness :
    loadRunConfig envNoFolder [itemA] false true = (Except.ok none, []) ∧
    loadRunConfig envNoFile [itemA] false true = (Except.ok none, []) ∧
    loadRunConfig envParseErr [itemA] false true = (Except.error "bad json", []) :=
  ⟨(loadRunConfig_noneOutcomes_and_parseFatal envNoFolder [itemA] itemA
      false true rfl).1 rfl,
   ((loadRunConfig_noneOutcomes_and_parseFatal envNoFile [itemA] itemA
      false true rfl).2 folderA rfl (Or.inl rfl)).1 rfl,
   ((loadRunConfig_noneOutcomes_and_parseFatal envParseErr [itemA] itemA
      false true rfl).2 folderA rfl (Or.inl rfl)).2 "bad json" rfl rfl⟩

/-- Witness for C9 at two structurally identical environments. -/
theorem loadRunConfig_deterministic_witness :
    loadRunConfig envNew [itemA] false false =
      loadRunConfig envNewCopy [itemA] false false :=
  loadRunConfig_deterministic envNew envNewCopy [itemA] false false
    rfl rfl rfl rfl rfl rfl

/-- Witness for C10: a parsed legacy document without a `debug` group makes
`loadRunConfig` throw in both the default and the interactive branch. -/
theorem loadRunConfig_missingGroupThrows_witness :
    (∃ e, loadRunConfig envMissingDebug [itemA] true true =
      (Except.error e, [])) ∧
    (∃ e, loadRunConfig envMissingDebug [itemA] true false =
      (Except.error e, [])) :=
  ⟨loadRunConfig_missingGroupThrows envMissingDebug [itemA] itemA folderA
      ⟨some ⟨[cfgA], some "A"⟩, none⟩ true true rfl rfl (Or.inl rfl) rfl rfl rfl,
   loadRunConfig_missingGroupThrows envMissingDebug [itemA] itemA folderA
      ⟨some ⟨[cfgA], some "A"⟩, none⟩ true false rfl rfl (Or.inl rfl) rfl rfl rfl⟩

end TestConfigManager
